import Mathlib

/-! # Verification of a dungeon-crawler game core

Shallow embedding of the AI-response validator (`ai/dungeon_master.py`),
player stat mutations (`game/player.py`), the deterministic dice combat
resolver (`game/combat.py`) and the engine's combat dispatch
(`game/engine.py`), together with proofs of the specified properties.

Python conventions used throughout the embedding: Python `int` is `Int`,
Python `float` is modelled as `Rat`, fallible code returns `Except`, and
mutation of `self` becomes explicit state passing. -/

namespace DungeonGame

/-- A Python value as produced by `json.loads`: JSON `null` maps to Python
`None`, objects to `dict` (modelled as association lists), arrays to `list`;
floats are modelled as rationals. -/
inductive PyVal where
  | pynull
  | pybool (b : Bool)
  | pyint (n : Int)
  | pyfloat (q : Rat)
  | pystr (s : String)
  | pylist (elems : List PyVal)
  | pydict (entries : List (String × PyVal))

/-- Python `d.get(key, dflt)` on a dict. -/
def dictGetD (kvs : List (String × PyVal)) (key : String) (dflt : PyVal) : PyVal :=
  match kvs.lookup key with
  | Option.some v => v
  | Option.none => dflt

/-- The characters Python's `str.strip()` and the regex class `\s` treat as
whitespace (ASCII range). -/
def isPySpace (c : Char) : Bool :=
  c == ' ' || c == '\t' || c == '\n' || c == '\r' || c == '\x0b' || c == '\x0c'

/-- Python `str.strip()` on a character list: drop whitespace from both ends. -/
def pyStripL (l : List Char) : List Char :=
  ((l.dropWhile isPySpace).reverse.dropWhile isPySpace).reverse

/-- Python `str.strip()`. -/
def pyStrip (s : String) : String := String.mk (pyStripL s.toList)

/-- Python `str.lower()` (ASCII case folding). -/
def pyLower (s : String) : String := String.mk (s.toList.map Char.toLower)

/-- Python truthiness `bool(x)`. -/
def pyBool : PyVal → Bool
  | PyVal.pynull => false
  | PyVal.pybool b => b
  | PyVal.pyint n => decide (n ≠ 0)
  | PyVal.pyfloat q => decide (q ≠ 0)
  | PyVal.pystr s => decide (s ≠ "")
  | PyVal.pylist l => !l.isEmpty
  | PyVal.pydict l => !l.isEmpty

/-- Digit-list to number accumulator; fails on any non-digit character. -/
def digitsVal (cs : List Char) : Option Nat :=
  cs.foldl
    (fun acc c =>
      match acc with
      | Option.none => Option.none
      | Option.some n => if c.isDigit then Option.some (10 * n + (c.toNat - 48)) else Option.none)
    (Option.some 0)

/-- Models Python `float(s)` on plain decimal literals (optional sign, digits,
optional single decimal point, surrounding whitespace). Exotic accepted forms
(exponents, `inf`, `nan`, underscores) are not modelled; no property proved
here depends on which strings coerce. -/
def strToRat (s : String) : Option Rat :=
  let cs := pyStripL s.toList
  let sgnBody : Int × List Char :=
    match cs with
    | '-' :: rest => (-1, rest)
    | '+' :: rest => (1, rest)
    | _ => (1, cs)
  let body := sgnBody.2
  let ip := body.takeWhile (fun c => !(c == '.'))
  let rest := body.dropWhile (fun c => !(c == '.'))
  let fp := match rest with
    | [] => ([] : List Char)
    | _ :: t => t
  if ip = [] ∧ fp = [] then Option.none
  else
    match digitsVal ip, digitsVal fp with
    | Option.some i, Option.some f =>
        Option.some (sgnBody.1 * ((i : Rat) + (f : Rat) / ((10 : Rat) ^ fp.length)))
    | _, _ => Option.none

/-- Python `float(x)` on an arbitrary value: numbers and numeric strings
coerce, everything else raises `TypeError`/`ValueError` (modelled as `none`). -/
def pyFloat : PyVal → Option Rat
  | PyVal.pybool b => Option.some (if b then 1 else 0)
  | PyVal.pyint n => Option.some (n : Rat)
  | PyVal.pyfloat q => Option.some q
  | PyVal.pystr s => strToRat s
  | _ => Option.none

/-- Validated NPC descriptor as returned by `DungeonMaster._validate_npc`:
the name is the stripped string, the disposition is coerced into the valid
set, but the role value is passed through as-is (any Python value). -/
structure NpcInfo where
  name : String
  role : PyVal
  disposition : String

/-- Validated, strongly typed container for the AI response
(`DMResponse` in `ai/dungeon_master.py`). -/
structure DMResponse where
  narrative : String
  combat_trigger : Bool
  enemy_type : Option String
  new_npc : Option NpcInfo
  quest_update : Option String
  new_location : Option String
  location_description : Option String
  tension_delta : Rat
  memory_event : Option String
  raw_json : PyVal

/-- The dataclass field defaults of `DMResponse`. -/
def defaultDMResponse : DMResponse :=
  { narrative := "The shadows stir. Something is watching."
    combat_trigger := false
    enemy_type := Option.none
    new_npc := Option.none
    quest_update := Option.none
    new_location := Option.none
    location_description := Option.none
    tension_delta := 0
    memory_event := Option.none
    raw_json := PyVal.pydict [] }

namespace DungeonMaster

/-- `DungeonMaster.VALID_ENEMY_TYPES` (must match `combat.py` template keys). -/
def VALID_ENEMY_TYPES : List String :=
  ["goblin", "skeleton", "dark_wolf", "cultist", "cave_troll"]

/-- `DungeonMaster._safe_str(value, default)`: returns the stripped string
when `value` is a string that is truthy after `strip()` and whose
(unstripped) lowercase form is not `"null"`; otherwise the default.
The Python default argument is rendered at the call sites via `Option.getD`. -/
def safe_str (value : PyVal) : Option String :=
  match value with
  | PyVal.pystr s =>
      if pyStrip s ≠ "" ∧ pyLower s ≠ "null" then Option.some (pyStrip s) else Option.none
  | _ => Option.none

/-- `DungeonMaster._validate_npc(npc_data)`: `None` unless the value is a
dict with a string name that is non-empty after stripping; the disposition
is coerced to `"neutral"` unless it is one of the three valid strings; the
role defaults to `"stranger"` when the key is absent and is otherwise
passed through unchanged. -/
def validate_npc (npcData : PyVal) : Option NpcInfo :=
  match npcData with
  | PyVal.pydict kvs =>
      let name := dictGetD kvs "name" (PyVal.pystr "")
      let role := dictGetD kvs "role" (PyVal.pystr "stranger")
      let dispo := dictGetD kvs "disposition" (PyVal.pystr "neutral")
      match name with
      | PyVal.pystr ns =>
          if pyStrip ns = "" then Option.none
          else
            Option.some
              { name := pyStrip ns
                role := role
                disposition :=
                  match dispo with
                  | PyVal.pystr ds =>
                      if ds = "friendly" ∨ ds = "neutral" ∨ ds = "hostile" then ds
                      else "neutral"
                  | _ => "neutral" }
      | _ => Option.none
  | _ => Option.none

/-- The literal `"narrative"` searched for by `_extract_narrative_fallback`. -/
def litNarrative : List Char :=
  ['"', 'n', 'a', 'r', 'r', 'a', 't', 'i', 'v', 'e', '"']

/-- Match a literal character sequence at the front of a list, returning the
remainder on success. -/
def stripLit : List Char → List Char → Option (List Char)
  | [], cs => Option.some cs
  | _ :: _, [] => Option.none
  | l :: ls, c :: cs => if c == l then stripLit ls cs else Option.none

/-- One attempt of the regex `"narrative"\s*:\s*"([^"]{10,})"` anchored at the
start of `cs`: after the literal and `\s*:\s*"`, the greedy group captures the
maximal run of non-quote characters, which must have length at least 10 and be
terminated by a closing quote. -/
def narrativeMatchAt (cs : List Char) : Option String :=
  match stripLit litNarrative cs with
  | Option.none => Option.none
  | Option.some cs1 =>
    match cs1.dropWhile isPySpace with
    | [] => Option.none
    | c3 :: cs3 =>
      if c3 == ':' then
        match cs3.dropWhile isPySpace with
        | [] => Option.none
        | c5 :: cs5 =>
          if c5 == '"' then
            let cap := cs5.takeWhile (fun c => !(c == '"'))
            let rest := cs5.dropWhile (fun c => !(c == '"'))
            if 10 ≤ cap.length ∧ rest ≠ [] then Option.some (String.mk cap)
            else Option.none
          else Option.none
      else Option.none

/-- `re.search` for the narrative pattern: try every start position, leftmost
match wins. -/
def narrativeSearch : List Char → Option String
  | [] => Option.none
  | c :: rest =>
    match narrativeMatchAt (c :: rest) with
    | Option.some s => Option.some s
    | Option.none => narrativeSearch rest

/-- `DungeonMaster._extract_narrative_fallback(text)`: pattern-search for a
narrative value inside broken JSON, else the first 200 characters stripped,
else a fixed line. -/
def extract_narrative_fallback (text : String) : String :=
  match narrativeSearch text.toList with
  | Option.some s => s
  | Option.none =>
    let t := pyStrip (String.mk (text.toList.take 200))
    if t = "" then "La mazmorra guarda sus secretos." else t

/-- The field-by-field validation body of `DungeonMaster._parse` that runs
after a successful `json.loads` producing a dict. -/
def parseDict (kvs : List (String × PyVal)) : DMResponse :=
  let narrative := (safe_str (dictGetD kvs "narrative" PyVal.pynull)).getD
    ("The world holds its breath.")
  let combat_trigger := pyBool (dictGetD kvs "combat_trigger" (PyVal.pybool false))
  let enemy_raw :=
    match dictGetD kvs "enemy_type" PyVal.pynull with
    | PyVal.pystr s => if VALID_ENEMY_TYPES.contains s then Option.some s else Option.none
    | _ => Option.none
  let enemy_type := if combat_trigger then enemy_raw else Option.none
  let new_npc := validate_npc (dictGetD kvs "new_npc" PyVal.pynull)
  let quest_update := safe_str (dictGetD kvs "quest_update" PyVal.pynull)
  let new_location := safe_str (dictGetD kvs "new_location" PyVal.pynull)
  let location_description := safe_str (dictGetD kvs "location_description" PyVal.pynull)
  let memory_event := safe_str (dictGetD kvs "memory_event" PyVal.pynull)
  let tension_delta :=
    match pyFloat (dictGetD kvs "tension_delta" (PyVal.pyfloat 0)) with
    | Option.some q => max (-1 : Rat) (min 1 q)
    | Option.none => 0
  { narrative := narrative
    combat_trigger := combat_trigger
    enemy_type := enemy_type
    new_npc := new_npc
    quest_update := quest_update
    new_location := new_location
    location_description := location_description
    tension_delta := tension_delta
    memory_event := memory_event
    raw_json := PyVal.pydict kvs }

/-- The Python exceptions `_parse` can leak. Only `json.JSONDecodeError` is
caught by the code; calling `.get` on a non-dict raises `AttributeError`. -/
inductive PyErr where
  | attributeError

/-- `DungeonMaster._parse(raw_text)`. The code-fence stripping plus
`json.loads` stage (Python standard library, not repository code) is modelled
by the `decoded` argument: `none` is the `json.JSONDecodeError` case, which
the code catches and turns into a fallback response built from `raw_text`;
`some v` is a successful decode of the cleaned text into the value `v`.
On a decoded non-dict value, the very first `data.get("narrative")` raises
`AttributeError`, which no handler catches. -/
def parse (decoded : Option PyVal) (rawText : String) : Except PyErr DMResponse :=
  match decoded with
  | Option.none =>
      Except.ok { defaultDMResponse with narrative := extract_narrative_fallback rawText }
  | Option.some (PyVal.pydict kvs) => Except.ok (parseDict kvs)
  | Option.some _ => Except.error PyErr.attributeError

end DungeonMaster

/-- The parsed response, defaulting when `_parse` raises; a convenience for
evaluating `_parse` at concrete inputs where it is known to succeed. -/
def parsedOr (decoded : Option PyVal) (rawText : String) : DMResponse :=
  match DungeonMaster.parse decoded rawText with
  | Except.ok r => r
  | Except.error _ => defaultDMResponse

/-! ## `game/player.py` -/

/-- The player character (`Player` in `game/player.py`). -/
structure Player where
  name : String
  hp : Int
  max_hp : Int
  strength : Int
  intelligence : Int
  gold : Int
  inventory : List String
  level : Int
  xp : Int

/-- The `Player.__init__` defaults. -/
def defaultPlayer : Player :=
  { name := "Adventurer", hp := 20, max_hp := 20, strength := 5, intelligence := 5,
    gold := 10, inventory := ["Torch", "Rations x3"], level := 1, xp := 0 }

/-- `Player.take_damage(amount)`: clamp HP at 0, return the actual damage
dealt together with the updated player. -/
def Player.take_damage (p : Player) (amount : Int) : Int × Player :=
  (min amount p.hp, { p with hp := max 0 (p.hp - amount) })

/-- `Player._level_up()`: level-up bonuses, with a full heal. -/
def Player.level_up (p : Player) : Player :=
  { p with level := p.level + 1, max_hp := p.max_hp + 5, hp := p.max_hp + 5,
           strength := p.strength + 1, intelligence := p.intelligence + 1 }

/-- `Player.gain_xp(amount)`: add XP; on reaching the `level * 100` threshold,
subtract the threshold and level up, returning whether a level-up happened. -/
def Player.gain_xp (p : Player) (amount : Int) : Bool × Player :=
  let xp1 := p.xp + amount
  let threshold := p.level * 100
  if xp1 ≥ threshold then (true, Player.level_up { p with xp := xp1 - threshold })
  else (false, { p with xp := xp1 })

/-- `Player.add_item(item)`. -/
def Player.add_item (p : Player) (item : String) : Player :=
  { p with inventory := p.inventory ++ [item] }

/-- `Player.modify_gold(delta)`: refuse (returning `false` and leaving the
player unchanged) when the player cannot afford the spend. -/
def Player.modify_gold (p : Player) (delta : Int) : Bool × Player :=
  if p.gold + delta < 0 then (false, p) else (true, { p with gold := p.gold + delta })

/-- `Player.is_alive()`. -/
def Player.is_alive (p : Player) : Bool := decide (p.hp > 0)

/-! ## `game/combat.py` -/

/-- An enemy instance (the dicts produced by `make_enemy`). -/
structure Enemy where
  name : String
  hp : Int
  max_hp : Int
  attack : Int
  defense : Int
  xp_reward : Int
  gold_reward : Int
  loot : List String

/-- `make_enemy(...)`: factory for enemy instances, `max_hp` starts at `hp`. -/
def make_enemy (name : String) (hp attack defense xp_reward gold_reward : Int)
    (loot : List String) : Enemy :=
  { name := name, hp := hp, max_hp := hp, attack := attack, defense := defense,
    xp_reward := xp_reward, gold_reward := gold_reward, loot := loot }

/-- `ENEMY_TEMPLATES`: the enemy registry. -/
def ENEMY_TEMPLATES : List (String × Enemy) :=
  [("goblin", make_enemy ("Goblin Scout") 8 2 8 30 5 ["Rusty Dagger"]),
   ("skeleton", make_enemy ("Skeleton Warrior") 12 3 10 50 8 ["Bone Shard"]),
   ("dark_wolf", make_enemy ("Shadow Wolf") 15 4 9 60 0 ["Wolf Pelt"]),
   ("cultist", make_enemy ("Ashveil Cultist") 14 5 11 75 12 ["Ritual Scroll"]),
   ("cave_troll", make_enemy ("Cave Troll") 30 6 12 150 20 ["Troll Hide", "Crude Club"])]

/-- `get_enemy(key)`: fresh copy of a template, `ValueError` on unknown keys. -/
def get_enemy (key : String) : Except String Enemy :=
  match ENEMY_TEMPLATES.lookup key with
  | Option.some e => Except.ok e
  | Option.none => Except.error ("Unknown enemy type: " ++ key)

/-- `CombatLog`: accumulated round lines plus outcome and rewards. -/
structure CombatLog where
  rounds : List String
  outcome : String
  xp_gained : Int
  gold_gained : Int
  loot_gained : List String

/-- The `CombatLog` dataclass defaults. -/
def CombatLog.empty : CombatLog :=
  { rounds := [], outcome := "", xp_gained := 0, gold_gained := 0, loot_gained := [] }

/-- `CombatLog.add(line)`. -/
def CombatLog.add (log : CombatLog) (line : String) : CombatLog :=
  { log with rounds := log.rounds ++ [line] }

/-- The mutable state of one `CombatSystem` encounter: the player, the enemy
instance, and the log. -/
structure CombatState where
  player : Player
  enemy : Enemy
  log : CombatLog

namespace CombatSystem

/-- `CombatSystem.FLEE_BASE_CHANCE` (0.4). -/
def FLEE_BASE_CHANCE : Rat := (4 : Rat) / 10

/-- The random draws one call of `resolve_round` may consume, in program
order: the `random.random()` value used by `attempt_flee`, the player's d20
roll, the enemy's d20 roll, and the d6 roll inside `_enemy_damage`. Branches
that are not taken simply ignore the corresponding draw. -/
structure RoundDice where
  fleeDraw : Rat
  playerRoll : Int
  enemyRoll : Int
  enemyDamageRoll : Int

/-- `CombatSystem._player_hits(roll)`: beat the enemy defense threshold. -/
def player_hits (s : CombatState) (roll : Int) : Bool :=
  decide (roll ≥ s.enemy.defense)

/-- `CombatSystem._enemy_hits(roll)`: roll plus attack beats a flat 10. -/
def enemy_hits (s : CombatState) (roll : Int) : Bool :=
  decide (roll + s.enemy.attack ≥ 10)

/-- `CombatSystem._player_damage(roll)`. -/
def player_damage (s : CombatState) (roll : Int) : Int :=
  roll + s.player.strength

/-- `CombatSystem._enemy_damage(roll)`: d6 roll plus attack bonus. -/
def enemy_damage (s : CombatState) (d6 : Int) : Int :=
  d6 + s.enemy.attack

/-- `CombatSystem.attempt_flee()`: succeed when the uniform draw is below
`0.4 + intelligence * 0.02`. -/
def attempt_flee (s : CombatState) (draw : Rat) : Bool :=
  decide (draw < FLEE_BASE_CHANCE + (s.player.intelligence : Rat) * ((2 : Rat) / 100))

/-- The player-action half of `resolve_round` for `action == "attack"`
(`combat.py` lines 159-172): critical on a natural 20, otherwise hit against
defense, otherwise miss. -/
def attack_phase (s : CombatState) (roll : Int) : CombatState :=
  if roll = 20 then
    let dmg := player_damage s roll * 2
    { s with enemy := { s.enemy with hp := s.enemy.hp - dmg },
             log := s.log.add ("  🎲 CRITICAL HIT! You roll a 20 → " ++ toString dmg
               ++ " damage to " ++ s.enemy.name ++ ".") }
  else if player_hits s roll then
    let dmg := player_damage s roll
    let newhp := s.enemy.hp - dmg
    { s with enemy := { s.enemy with hp := newhp },
             log := s.log.add ("  🎲 You roll " ++ toString roll ++ " → Hit! "
               ++ toString dmg ++ " damage to " ++ s.enemy.name ++ " (HP: "
               ++ toString (max 0 newhp) ++ "/" ++ toString s.enemy.max_hp ++ ").") }
  else
    { s with log := s.log.add ("  🎲 You roll " ++ toString roll ++ " → Miss. "
        ++ s.enemy.name ++ " dodges your blow.") }

/-- `CombatSystem._resolve_victory()`: apply XP, gold and loot rewards and
close the log with outcome `"victory"`. -/
def resolve_victory (s : CombatState) : CombatState :=
  let xp := s.enemy.xp_reward
  let gold := s.enemy.gold_reward
  let loot := s.enemy.loot
  let lp := s.player.gain_xp xp
  let p2 := (lp.2.modify_gold gold).2
  let p3 := loot.foldl Player.add_item p2
  let log1 := { s.log with xp_gained := xp, gold_gained := gold,
                           loot_gained := loot, outcome := "victory" }
  let log2 := log1.add ("\n✨ " ++ s.enemy.name ++ " falls! You gain "
    ++ toString xp ++ " XP and " ++ toString gold ++ " gold.")
  let log3 := if loot.isEmpty then log2
    else log2.add ("   Loot: " ++ String.intercalate (", ") loot)
  let log4 := if lp.1 then
      log3.add ("\n🌟 LEVEL UP! You are now level " ++ toString p3.level
        ++ ". HP fully restored to " ++ toString p3.max_hp ++ ".")
    else log3
  { s with player := p3, log := log4 }

/-- The shared tail of `resolve_round` (`combat.py` lines 174-195), which both
the attack branch and the failed-flee branch fall through to: enemy-death
check, then the enemy counter-attack, then the player-death check. Returns
`true` when combat continues. -/
def after_action (s : CombatState) (dice : RoundDice) : Bool × CombatState :=
  if s.enemy.hp ≤ 0 then (false, resolve_victory s)
  else
    let s2 :=
      if enemy_hits s dice.enemyRoll then
        let dmg := enemy_damage s dice.enemyDamageRoll
        let ap := s.player.take_damage dmg
        { s with player := ap.2,
                 log := s.log.add ("  ⚔️  " ++ s.enemy.name ++ " strikes back → "
                   ++ toString ap.1 ++ " damage to you (HP: " ++ toString ap.2.hp
                   ++ "/" ++ toString ap.2.max_hp ++ ").") }
      else
        { s with log := s.log.add ("  ⚔️  " ++ s.enemy.name
            ++ " swings wildly — you dodge.") }
    if s2.player.is_alive then (true, s2)
    else
      (false, { s2 with log := { (s2.log.add ("\n💀 You have been slain by "
          ++ s2.enemy.name ++ "...")) with outcome := "defeat" } })

/-- The flee-failure line logged by `resolve_round`. -/
def fleeFailLine : String := "You scramble to flee but the enemy cuts off your escape!"

/-- `CombatSystem.resolve_round(action)`: one combat round, returning whether
combat continues together with the updated state. A successful flee returns
immediately with outcome `"fled"`; a failed flee logs `fleeFailLine` and falls
through to the same tail as the attack branch. -/
def resolve_round (s : CombatState) (action : String) (dice : RoundDice) :
    Bool × CombatState :=
  if action = "flee" then
    if attempt_flee s dice.fleeDraw then
      (false, { s with log := { (s.log.add ("You dash into the shadows and escape!"))
          with outcome := "fled" } })
    else after_action { s with log := s.log.add fleeFailLine } dice
  else after_action (attack_phase s dice.playerRoll) dice

end CombatSystem

/-! ## `game/engine.py` -/

/-- The combat-dispatch decision of `GameEngine._game_loop` (`engine.py` lines
129-134): with a truthy enemy identifier, fight that enemy; with
`combat_trigger` set but no identifier, the engine prints the engine-level
fallback notice and fights `"goblin"`. Returns the enemy key to fight paired
with whether the fallback notice was logged, or `none` when combat is
skipped. -/
def combat_dispatch (r : DMResponse) : Option (String × Bool) :=
  match r.enemy_type with
  | Option.some e =>
      if r.combat_trigger && !(e == "") then Option.some (e, false)
      else if r.combat_trigger then Option.some ("goblin", true)
      else Option.none
  | Option.none =>
      if r.combat_trigger then Option.some ("goblin", true) else Option.none

/-! ## Statement vocabulary and concrete inputs for the claims -/

/-- An optional Intent string is absent, or non-empty text fixed by
stripping (hence not empty and not whitespace-only). -/
def validOptStr (o : Option String) : Prop :=
  ∀ s, o = Option.some s → s ≠ "" ∧ pyStrip s = s

/-- The spec's full invariant for one optional string: absent, or non-empty
stripped text that is not the literal string `"null"`. -/
def cleanOptStr (o : Option String) : Bool :=
  match o with
  | Option.none => true
  | Option.some s => !(s == "") && (pyStrip s == s) && !(s == "null")

/-- The spec's invariant on a validated NPC descriptor: name and role are
non-empty stripped non-`"null"` text and the disposition is valid. -/
def npcStringsClean (n : NpcInfo) : Bool :=
  cleanOptStr (Option.some n.name) &&
  (match n.role with
   | PyVal.pystr s => cleanOptStr (Option.some s)
   | _ => false) &&
  (n.disposition == "friendly" || n.disposition == "neutral" || n.disposition == "hostile")

/-- Claim C3's stated invariant over a validated Intent: every optional
string field (and the NPC name and role) absent or non-empty stripped
non-`"null"` text, with a valid NPC disposition. -/
def intentStringsClean (r : DMResponse) : Bool :=
  cleanOptStr r.quest_update && cleanOptStr r.new_location &&
  cleanOptStr r.location_description && cleanOptStr r.memory_event &&
  (match r.new_npc with
   | Option.none => true
   | Option.some n => npcStringsClean n)

/-- The raw enemy identifier of a decoded response is a registered enemy
key (read directly off the raw value, before validation). -/
def rawEnemyRegistered (decoded : Option PyVal) : Bool :=
  match decoded with
  | Option.some (PyVal.pydict kvs) =>
      match dictGetD kvs "enemy_type" PyVal.pynull with
      | PyVal.pystr s => DungeonMaster.VALID_ENEMY_TYPES.contains s
      | _ => false
  | _ => false

/-- The goblin registry entry, as built by `ENEMY_TEMPLATES`. -/
def goblinTemplate : Enemy := make_enemy ("Goblin Scout") 8 2 8 30 5 ["Rusty Dagger"]

/-- A decoded response whose NPC has an empty role and a `"null"` name and
whose `quest_update` strips to the literal `"null"`. -/
def c3CexRaw : PyVal :=
  PyVal.pydict
    [("quest_update", PyVal.pystr (" null ")),
     ("new_npc", PyVal.pydict
        [("name", PyVal.pystr ("null")), ("role", PyVal.pystr (""))])]

/-- A well-formed decoded response used to instantiate the C3 invariant. -/
def c3WitnessRaw : Option PyVal :=
  Option.some (PyVal.pydict
    [("quest_update", PyVal.pystr ("  Find the sunken key  ")),
     ("new_npc", PyVal.pydict
        [("name", PyVal.pystr (" Mira ")), ("disposition", PyVal.pystr ("hostile"))])])

/-- A decoded response that triggers combat with a registered enemy key. -/
def c2WitnessRaw : Option PyVal :=
  Option.some (PyVal.pydict
    [("combat_trigger", PyVal.pybool true), ("enemy_type", PyVal.pystr ("goblin"))])

/-- The validated Intent for the spec scenario `combat_trigger = true` with
the unregistered enemy identifier `"dragon"`. -/
def dragonResponse : DMResponse :=
  parsedOr (Option.some (PyVal.pydict
    [("combat_trigger", PyVal.pybool true), ("enemy_type", PyVal.pystr ("dragon"))])) ""

/-- A one-hp player facing a fresh goblin: the flee-failure counter-attack
can kill. -/
def c7CexState : CombatState :=
  { player := { defaultPlayer with hp := 1 }, enemy := goblinTemplate, log := CombatLog.empty }

/-- Dice for the C7 counterexample: the flee draw 1 fails against chance 0.5,
the enemy's natural 20 hits, the d6 rolls 6. -/
def c7CexDice : CombatSystem.RoundDice :=
  { fleeDraw := 1, playerRoll := 1, enemyRoll := 20, enemyDamageRoll := 6 }

/-- A healthy player facing a fresh goblin (C7 witness). -/
def c7WitnessState : CombatState :=
  { player := defaultPlayer, enemy := goblinTemplate, log := CombatLog.empty }

/-- Dice for the C7 witness: flee fails, the enemy counter-roll 1 misses. -/
def c7WitnessDice : CombatSystem.RoundDice :=
  { fleeDraw := 1, playerRoll := 1, enemyRoll := 1, enemyDamageRoll := 1 }

/-- A default player facing a fresh goblin (C6 witness). -/
def c6WitnessState : CombatState :=
  { player := defaultPlayer, enemy := goblinTemplate, log := CombatLog.empty }

/-- Dice whose player roll is a natural 20 (C6/C8 witnesses). -/
def c6WitnessDice : CombatSystem.RoundDice :=
  { fleeDraw := 0, playerRoll := 20, enemyRoll := 1, enemyDamageRoll := 1 }

/-! ## Supporting lemmas: `str.strip()` is idempotent -/

theorem head?_dropWhile_false {α : Type _} (p : α → Bool) :
    ∀ (l : List α) (a : α), (l.dropWhile p).head? = Option.some a → p a = false := by
  intro l
  induction l with
  | nil => intro a h; simp [List.dropWhile] at h
  | cons b t ih =>
    intro a h
    cases hb : p b with
    | true => rw [List.dropWhile_cons_of_pos hb] at h; exact ih a h
    | false =>
      rw [List.dropWhile_cons_of_neg (by simp [hb])] at h
      simp at h
      subst h
      exact hb

theorem head?_reverse_dropWhile {α : Type _} (p : α → Bool) :
    ∀ (u : List α) (a : α), ((u.dropWhile p).reverse).head? = Option.some a →
      (u.reverse).head? = Option.some a := by
  intro u
  induction u with
  | nil => intro a h; simp [List.dropWhile] at h
  | cons b t ih =>
    intro a h
    cases hb : p b with
    | true =>
      rw [List.dropWhile_cons_of_pos hb] at h
      have h2 := ih a h
      rw [List.reverse_cons]
      cases ht : t.reverse with
      | nil => rw [ht] at h2; simp at h2
      | cons x xs => rw [ht] at h2; simpa using h2
    | false =>
      rw [List.dropWhile_cons_of_neg (by simp [hb])] at h
      exact h

theorem dropWhile_eq_self_of_head {α : Type _} (p : α → Bool) (l : List α)
    (h : ∀ a, l.head? = Option.some a → p a = false) : l.dropWhile p = l := by
  cases l with
  | nil => rfl
  | cons b t => exact List.dropWhile_cons_of_neg (by simp [h b rfl])

theorem pyStripL_head_false (l : List Char) (a : Char)
    (h : (pyStripL l).head? = Option.some a) : isPySpace a = false := by
  unfold pyStripL at h
  have h2 := head?_reverse_dropWhile isPySpace ((l.dropWhile isPySpace).reverse) a h
  rw [List.reverse_reverse] at h2
  exact head?_dropWhile_false isPySpace l a h2

theorem pyStripL_revhead_false (l : List Char) (a : Char)
    (h : (pyStripL l).reverse.head? = Option.some a) : isPySpace a = false := by
  unfold pyStripL at h
  rw [List.reverse_reverse] at h
  exact head?_dropWhile_false isPySpace _ a h

theorem pyStripL_idem (l : List Char) : pyStripL (pyStripL l) = pyStripL l := by
  have h1 : (pyStripL l).dropWhile isPySpace = pyStripL l :=
    dropWhile_eq_self_of_head _ _ (fun a h => pyStripL_head_false l a h)
  show (((pyStripL l).dropWhile isPySpace).reverse.dropWhile isPySpace).reverse = pyStripL l
  rw [h1]
  have h2 : (pyStripL l).reverse.dropWhile isPySpace = (pyStripL l).reverse :=
    dropWhile_eq_self_of_head _ _ (fun a h => pyStripL_revhead_false l a h)
  rw [h2, List.reverse_reverse]

theorem toList_mk (l : List Char) : (String.mk l).toList = l := rfl

theorem pyStrip_idem (s : String) : pyStrip (pyStrip s) = pyStrip s := by
  unfold pyStrip
  rw [toList_mk, pyStripL_idem]

theorem safe_str_eq_some (v : PyVal) (s : String)
    (h : DungeonMaster.safe_str v = Option.some s) : s ≠ "" ∧ pyStrip s = s := by
  cases v with
  | pystr s0 =>
    simp only [DungeonMaster.safe_str] at h
    by_cases hc : pyStrip s0 ≠ "" ∧ pyLower s0 ≠ "null"
    · rw [if_pos hc] at h
      have hs : pyStrip s0 = s := Option.some.inj h
      subst hs
      exact ⟨hc.1, pyStrip_idem s0⟩
    · rw [if_neg hc] at h; cases h
  | pynull => cases h
  | pybool b => cases h
  | pyint n => cases h
  | pyfloat q => cases h
  | pylist l => cases h
  | pydict l => cases h

theorem validate_npc_eq_some (v : PyVal) (n : NpcInfo)
    (h : DungeonMaster.validate_npc v = Option.some n) :
    n.name ≠ "" ∧ pyStrip n.name = n.name ∧
    (n.disposition = "friendly" ∨ n.disposition = "neutral" ∨ n.disposition = "hostile") := by
  cases v with
  | pydict kvs =>
    cases hname : dictGetD kvs "name" (PyVal.pystr "") with
    | pystr ns =>
      simp only [DungeonMaster.validate_npc, hname] at h
      by_cases hne : pyStrip ns = ""
      · rw [if_pos hne] at h; cases h
      · rw [if_neg hne] at h
        have hn := Option.some.inj h
        subst hn
        refine ⟨hne, pyStrip_idem ns, ?_⟩
        cases hd : dictGetD kvs "disposition" (PyVal.pystr "neutral") with
        | pystr ds =>
          simp only [hd]
          by_cases hdv : ds = "friendly" ∨ ds = "neutral" ∨ ds = "hostile"
          · rw [if_pos hdv]; exact hdv
          · rw [if_neg hdv]; exact Or.inr (Or.inl rfl)
        | pynull => simp [hd]
        | pybool b => simp [hd]
        | pyint m => simp [hd]
        | pyfloat q => simp [hd]
        | pylist l => simp [hd]
        | pydict l2 => simp [hd]
    | pynull => simp [DungeonMaster.validate_npc, hname] at h
    | pybool b => simp [DungeonMaster.validate_npc, hname] at h
    | pyint m => simp [DungeonMaster.validate_npc, hname] at h
    | pyfloat q => simp [DungeonMaster.validate_npc, hname] at h
    | pylist l => simp [DungeonMaster.validate_npc, hname] at h
    | pydict l2 => simp [DungeonMaster.validate_npc, hname] at h
  | pynull => cases h
  | pybool b => cases h
  | pyint m => cases h
  | pyfloat q => cases h
  | pystr s0 => cases h
  | pylist l => cases h

/-! ## Combat lemmas -/

theorem log_mem_add {log : CombatLog} {x : String} (line : String)
    (hx : x ∈ log.rounds) : x ∈ (log.add line).rounds := by
  simp only [CombatLog.add, List.mem_append]
  exact Or.inl hx

theorem resolve_victory_log_mem (s : CombatState) (x : String)
    (hx : x ∈ s.log.rounds) : x ∈ (CombatSystem.resolve_victory s).log.rounds := by
  unfold CombatSystem.resolve_victory
  by_cases hl : s.enemy.loot.isEmpty <;>
    by_cases hu : (s.player.gain_xp s.enemy.xp_reward).1 <;>
      simp [hl, hu, CombatLog.add, hx]

theorem resolve_victory_enemy_eq (s : CombatState) :
    (CombatSystem.resolve_victory s).enemy = s.enemy := rfl

theorem after_action_enemy_eq (s : CombatState) (d : CombatSystem.RoundDice) :
    ((CombatSystem.after_action s d).2).enemy = s.enemy := by
  unfold CombatSystem.after_action
  by_cases h0 : s.enemy.hp ≤ 0
  · rw [if_pos h0]; rfl
  · rw [if_neg h0]
    by_cases hh : CombatSystem.enemy_hits s d.enemyRoll = true <;>
      simp only [hh, if_true, if_false, Bool.false_eq_true] <;>
        split <;> rfl

theorem after_action_log_mem (s : CombatState) (d : CombatSystem.RoundDice) (x : String)
    (hx : x ∈ s.log.rounds) : x ∈ ((CombatSystem.after_action s d).2).log.rounds := by
  unfold CombatSystem.after_action
  by_cases h0 : s.enemy.hp ≤ 0
  · rw [if_pos h0]; exact resolve_victory_log_mem s x hx
  · rw [if_neg h0]
    by_cases hh : CombatSystem.enemy_hits s d.enemyRoll = true <;>
      simp only [hh, if_true, if_false, Bool.false_eq_true] <;>
        split <;> simp [CombatLog.add, hx]

theorem after_action_continue_eq_alive (s : CombatState) (d : CombatSystem.RoundDice)
    (h : 0 < s.enemy.hp) :
    (CombatSystem.after_action s d).1 = ((CombatSystem.after_action s d).2).player.is_alive := by
  unfold CombatSystem.after_action
  rw [if_neg (by omega : ¬ s.enemy.hp ≤ 0)]
  by_cases hh : CombatSystem.enemy_hits s d.enemyRoll = true <;>
    simp only [hh, if_true, if_false, Bool.false_eq_true] <;>
      split <;> simp_all

theorem attempt_flee_draw_one_int5 (s : CombatState) (h : s.player.intelligence = 5) :
    CombatSystem.attempt_flee s 1 = false := by
  simp only [CombatSystem.attempt_flee, CombatSystem.FLEE_BASE_CHANCE, h,
    decide_eq_false_iff_not, not_lt]
  norm_num

/-! ## Claim theorems -/

/-- Claim C1, evaluated at the failing input: the spec says `_parse` never
raises on any raw text, but on the raw text `"null"` — which `json.loads`
decodes successfully to Python `None` — the code calls `.get` on a non-dict
and raises `AttributeError` (only `json.JSONDecodeError` is caught),
contradicting the code's own docstring that a malformed response "can never
crash the game". -/
theorem c1_parse_raises_on_nonobject :
    DungeonMaster.parse (Option.some PyVal.pynull) "null"
      = Except.error DungeonMaster.PyErr.attributeError := rfl

/-- Claim C2: for every raw input accepted by `_parse`, the validated Intent
carries an enemy identifier exactly when its combat_trigger is true and the
raw enemy identifier is one of the registered enemy keys. -/
theorem c2_enemy_type_iff (decoded : Option PyVal) (rawText : String) (r : DMResponse)
    (h : DungeonMaster.parse decoded rawText = Except.ok r) :
    r.enemy_type.isSome = (r.combat_trigger && rawEnemyRegistered decoded) := by
  cases decoded with
  | none =>
    simp only [DungeonMaster.parse] at h
    have hr := Except.ok.inj h
    subst hr
    rfl
  | some v =>
    cases v with
    | pydict kvs =>
      simp only [DungeonMaster.parse] at h
      have hr := Except.ok.inj h
      subst hr
      simp only [DungeonMaster.parseDict, rawEnemyRegistered]
      cases hct : pyBool (dictGetD kvs "combat_trigger" (PyVal.pybool false)) with
      | false => simp [hct]
      | true =>
        simp only [hct, Bool.true_and, if_true]
        cases hv : dictGetD kvs "enemy_type" PyVal.pynull with
        | pystr s =>
          by_cases hc : s ∈ DungeonMaster.VALID_ENEMY_TYPES
          · simp [hc]
          · simp [hc]
        | pynull => simp
        | pybool b => simp
        | pyint m => simp
        | pyfloat q => simp
        | pylist l => simp
        | pydict l2 => simp
    | pynull => cases h
    | pybool b => cases h
    | pyint m => cases h
    | pyfloat q => cases h
    | pystr s0 => cases h
    | pylist l => cases h

/-- Witness for C2 at a concrete decoded response triggering combat with the
registered key `"goblin"`. -/
theorem c2_enemy_type_iff_witness :
    (parsedOr c2WitnessRaw "").enemy_type.isSome
      = ((parsedOr c2WitnessRaw "").combat_trigger && rawEnemyRegistered c2WitnessRaw) :=
  c2_enemy_type_iff c2WitnessRaw "" (parsedOr c2WitnessRaw "") rfl

/-- Claim C3, refuted at a concrete input: the raw response
`{"quest_update": " null ", "new_npc": {"name": "null", "role": ""}}` parses
to an Intent whose quest_update is the literal string `"null"` (the code
lowercases before stripping, so `" null "` slips through), whose NPC name is
`"null"` (names are never checked against `"null"`), and whose NPC role is
the empty string (roles are only defaulted, never sanitized) — falsifying
the claimed invariant `intentStringsClean`. -/
theorem c3_strings_counterexample :
    (parsedOr (Option.some c3CexRaw) "cex").quest_update = Option.some ("null")
    ∧ ((parsedOr (Option.some c3CexRaw) "cex").new_npc.map NpcInfo.name)
        = Option.some ("null")
    ∧ ((parsedOr (Option.some c3CexRaw) "cex").new_npc.map NpcInfo.role)
        = Option.some (PyVal.pystr "")
    ∧ intentStringsClean (parsedOr (Option.some c3CexRaw) "cex") = false :=
  ⟨rfl, rfl, rfl, rfl⟩

/-- Claim C3 (amended): for every accepted raw input, quest_update,
new_location, location_description and memory_event are absent or non-empty
stripped text (never empty or whitespace-only); the NPC descriptor, when
present, has a non-empty stripped name and a disposition among friendly,
neutral and hostile, and its role is `"stranger"` whenever the raw NPC object
lacks a role key. (Unlike the original claim, the role value is otherwise
passed through unsanitized, and raw strings that strip to `"null"` survive
into the string fields.) -/
theorem c3_amended_validated_strings :
    (∀ (decoded : Option PyVal) (rawText : String) (r : DMResponse),
      DungeonMaster.parse decoded rawText = Except.ok r →
      validOptStr r.quest_update ∧ validOptStr r.new_location ∧
      validOptStr r.location_description ∧ validOptStr r.memory_event ∧
      (∀ n, r.new_npc = Option.some n →
        n.name ≠ "" ∧ pyStrip n.name = n.name ∧
        (n.disposition = "friendly" ∨ n.disposition = "neutral" ∨ n.disposition = "hostile")))
    ∧ (∀ (kvs : List (String × PyVal)) (n : NpcInfo),
        kvs.lookup "role" = Option.none →
        DungeonMaster.validate_npc (PyVal.pydict kvs) = Option.some n →
        n.role = PyVal.pystr "stranger") := by
  constructor
  · intro decoded rawText r h
    cases decoded with
    | none =>
      simp only [DungeonMaster.parse] at h
      have hr := Except.ok.inj h
      subst hr
      refine ⟨?_, ?_, ?_, ?_, ?_⟩
      · intro s hs; cases hs
      · intro s hs; cases hs
      · intro s hs; cases hs
      · intro s hs; cases hs
      · intro n hn; cases hn
    | some v =>
      cases v with
      | pydict kvs =>
        simp only [DungeonMaster.parse] at h
        have hr := Except.ok.inj h
        subst hr
        refine ⟨?_, ?_, ?_, ?_, ?_⟩
        · intro s hs; exact safe_str_eq_some _ s hs
        · intro s hs; exact safe_str_eq_some _ s hs
        · intro s hs; exact safe_str_eq_some _ s hs
        · intro s hs; exact safe_str_eq_some _ s hs
        · intro n hn; exact validate_npc_eq_some _ n hn
      | pynull => cases h
      | pybool b => cases h
      | pyint m => cases h
      | pyfloat q => cases h
      | pystr s0 => cases h
      | pylist l => cases h
  · intro kvs n hrole h
    cases hname : dictGetD kvs "name" (PyVal.pystr "") with
    | pystr ns =>
      simp only [DungeonMaster.validate_npc, hname] at h
      by_cases hne : pyStrip ns = ""
      · rw [if_pos hne] at h; cases h
      · rw [if_neg hne] at h
        have hn := Option.some.inj h
        subst hn
        show dictGetD kvs "role" (PyVal.pystr "stranger") = PyVal.pystr "stranger"
        simp [dictGetD, hrole]
    | pynull => simp [DungeonMaster.validate_npc, hname] at h
    | pybool b => simp [DungeonMaster.validate_npc, hname] at h
    | pyint m => simp [DungeonMaster.validate_npc, hname] at h
    | pyfloat q => simp [DungeonMaster.validate_npc, hname] at h
    | pylist l => simp [DungeonMaster.validate_npc, hname] at h
    | pydict l2 => simp [DungeonMaster.validate_npc, hname] at h

/-- Witness for the amended C3 at a concrete accepted input whose
quest_update survives validation. -/
theorem c3_amended_validated_strings_witness :
    ("Find the sunken key" ≠ "" ∧ pyStrip ("Find the sunken key") = "Find the sunken key") :=
  (c3_amended_validated_strings.1 c3WitnessRaw "" (parsedOr c3WitnessRaw "") rfl).1
    ("Find the sunken key") rfl

/-- Claim C4: for a player with non-negative hp and a non-negative damage
amount, `take_damage` leaves hp non-negative and reports actual damage at
most the requested amount and at most the hp before the call. -/
theorem c4_take_damage_bounds (p : Player) (amount : Int)
    (h1 : 0 ≤ p.hp) (h2 : 0 ≤ amount) :
    0 ≤ (p.take_damage amount).2.hp ∧ (p.take_damage amount).1 ≤ amount ∧
      (p.take_damage amount).1 ≤ p.hp := by
  unfold Player.take_damage
  exact ⟨le_max_left 0 _, min_le_left _ _, min_le_right _ _⟩

/-- Witness for C4 at a concrete player and damage amount. -/
theorem c4_take_damage_bounds_witness :
    0 ≤ defaultPlayer.hp ∧ 0 ≤ (25 : Int) ∧
      (0 ≤ (defaultPlayer.take_damage 25).2.hp ∧
        (defaultPlayer.take_damage 25).1 ≤ 25 ∧
        (defaultPlayer.take_damage 25).1 ≤ defaultPlayer.hp) :=
  ⟨by decide, by decide, c4_take_damage_bounds defaultPlayer 25 (by decide) (by decide)⟩

/-- Claim C5: `gain_xp` adds the amount to xp and reports a level-up exactly
when the cumulative xp reaches `level * 100`; on level-up the threshold is
subtracted (the remainder carries over), the level increments, max_hp grows
by the fixed bonus 5, hp is fully restored to the new max_hp, and strength
and intelligence each grow by the fixed bonus 1. -/
theorem c5_gain_xp_levelup (p : Player) (amount : Int) :
    ((p.gain_xp amount).1 = true ↔ p.level * 100 ≤ p.xp + amount)
    ∧ ((p.gain_xp amount).1 = true →
        (p.gain_xp amount).2.xp = p.xp + amount - p.level * 100 ∧
        (p.gain_xp amount).2.level = p.level + 1 ∧
        (p.gain_xp amount).2.max_hp = p.max_hp + 5 ∧
        (p.gain_xp amount).2.hp = (p.gain_xp amount).2.max_hp ∧
        (p.gain_xp amount).2.strength = p.strength + 1 ∧
        (p.gain_xp amount).2.intelligence = p.intelligence + 1)
    ∧ ((p.gain_xp amount).1 = false →
        (p.gain_xp amount).2 = { p with xp := p.xp + amount }) := by
  unfold Player.gain_xp Player.level_up
  by_cases h : p.level * 100 ≤ p.xp + amount
  · rw [if_pos h]
    refine ⟨by simp [h], fun _ => ⟨rfl, rfl, rfl, rfl, rfl, rfl⟩, by simp⟩
  · rw [if_neg h]
    refine ⟨by simp [h], by simp, fun _ => rfl⟩

/-- Witness for C5 at a concrete player and xp amount. -/
theorem c5_gain_xp_levelup_witness :
    ((defaultPlayer.gain_xp 150).1 = true ↔
      defaultPlayer.level * 100 ≤ defaultPlayer.xp + 150) :=
  (c5_gain_xp_levelup defaultPlayer 150).1

/-- Claim C10: with non-negative gold, `modify_gold` refuses (returning
`false` and leaving the whole player unchanged) exactly when the balance
would go negative, otherwise applies the delta and returns `true`; gold is
non-negative after the call in both cases. -/
theorem c10_modify_gold (p : Player) (delta : Int) (h : 0 ≤ p.gold) :
    (p.gold + delta < 0 → p.modify_gold delta = (false, p))
    ∧ (0 ≤ p.gold + delta →
        p.modify_gold delta = (true, { p with gold := p.gold + delta }))
    ∧ 0 ≤ (p.modify_gold delta).2.gold := by
  unfold Player.modify_gold
  by_cases hd : p.gold + delta < 0
  · rw [if_pos hd]
    exact ⟨fun _ => rfl, fun hc => absurd hd (by omega), h⟩
  · rw [if_neg hd]
    exact ⟨fun hc => absurd hc hd, fun _ => rfl, show 0 ≤ p.gold + delta by omega⟩

/-- Witness for C10 at a concrete player and (unaffordable) spend. -/
theorem c10_modify_gold_witness :
    0 ≤ defaultPlayer.gold ∧
      ((defaultPlayer.gold + (-100) < 0 →
          defaultPlayer.modify_gold (-100) = (false, defaultPlayer))
        ∧ (0 ≤ defaultPlayer.gold + (-100) →
            defaultPlayer.modify_gold (-100)
              = (true, { defaultPlayer with gold := defaultPlayer.gold + (-100) }))
        ∧ 0 ≤ (defaultPlayer.modify_gold (-100)).2.gold) :=
  ⟨by decide, c10_modify_gold defaultPlayer (-100) (by decide)⟩

/-- Claim C6: in the attack action, a d20 roll of 20 is a critical hit that
deals exactly `2 * (20 + strength)` damage to the enemy — for every combat
state, hence regardless of the enemy's defense value. -/
theorem c6_critical_hit (s : CombatState) (d : CombatSystem.RoundDice)
    (h : d.playerRoll = 20) :
    ((CombatSystem.resolve_round s "attack" d).2).enemy.hp
      = s.enemy.hp - 2 * (20 + s.player.strength) := by
  unfold CombatSystem.resolve_round
  rw [if_neg (by decide : ¬ (("attack" : String) = "flee"))]
  rw [after_action_enemy_eq (CombatSystem.attack_phase s d.playerRoll) d]
  unfold CombatSystem.attack_phase
  rw [h, if_pos rfl]
  show s.enemy.hp - CombatSystem.player_damage s 20 * 2
      = s.enemy.hp - 2 * (20 + s.player.strength)
  unfold CombatSystem.player_damage
  ring

/-- Witness for C6 at a concrete state and dice. -/
theorem c6_critical_hit_witness :
    c6WitnessDice.playerRoll = 20 ∧
    ((CombatSystem.resolve_round c6WitnessState "attack" c6WitnessDice).2).enemy.hp
      = c6WitnessState.enemy.hp - 2 * (20 + c6WitnessState.player.strength) :=
  ⟨rfl, c6_critical_hit c6WitnessState c6WitnessDice rfl⟩

/-- Claim C7, refuted at a concrete input: with a one-hp player, a failed
flee attempt falls through to the enemy counter-attack, which kills the
player; the round returns Defeat (`false`, outcome `"defeat"`), not Ongoing
as the claim states. -/
theorem c7_flee_ongoing_counterexample :
    CombatSystem.attempt_flee c7CexState c7CexDice.fleeDraw = false
    ∧ (CombatSystem.resolve_round c7CexState "flee" c7CexDice).1 = false
    ∧ ((CombatSystem.resolve_round c7CexState "flee" c7CexDice).2).log.outcome
        = "defeat" := by
  have hf : CombatSystem.attempt_flee c7CexState c7CexDice.fleeDraw = false :=
    attempt_flee_draw_one_int5 c7CexState rfl
  refine ⟨hf, ?_, ?_⟩
  · unfold CombatSystem.resolve_round
    rw [if_pos rfl]
    simp only [hf, Bool.false_eq_true, if_false]
    rfl
  · unfold CombatSystem.resolve_round
    rw [if_pos rfl]
    simp only [hf, Bool.false_eq_true, if_false]
    rfl

/-- Claim C7 (amended): whenever the flee attempt fails (against a live
enemy), the failed attempt is logged and the round falls through to the
enemy's counter-attack; the round returns Ongoing exactly when the player
survives the counter-attack (otherwise the outcome is Defeat). -/
theorem c7_flee_failure_falls_through (s : CombatState) (d : CombatSystem.RoundDice)
    (hflee : CombatSystem.attempt_flee s d.fleeDraw = false)
    (henemy : 0 < s.enemy.hp) :
    CombatSystem.resolve_round s "flee" d
      = CombatSystem.after_action { s with log := s.log.add CombatSystem.fleeFailLine } d
    ∧ CombatSystem.fleeFailLine ∈ ((CombatSystem.resolve_round s "flee" d).2).log.rounds
    ∧ (CombatSystem.resolve_round s "flee" d).1
        = ((CombatSystem.resolve_round s "flee" d).2).player.is_alive := by
  have h1 : CombatSystem.resolve_round s "flee" d
      = CombatSystem.after_action { s with log := s.log.add CombatSystem.fleeFailLine } d := by
    unfold CombatSystem.resolve_round
    rw [if_pos rfl]
    simp [hflee]
  refine ⟨h1, ?_, ?_⟩
  · rw [h1]
    exact after_action_log_mem _ d CombatSystem.fleeFailLine
      (by simp [CombatLog.add])
  · rw [h1]
    exact after_action_continue_eq_alive _ d henemy

/-- Witness for the amended C7: a healthy default player fails to flee a
goblin, the counter-attack misses, and the round stays Ongoing. -/
theorem c7_flee_failure_falls_through_witness :
    CombatSystem.attempt_flee c7WitnessState c7WitnessDice.fleeDraw = false
    ∧ 0 < c7WitnessState.enemy.hp
    ∧ (CombatSystem.resolve_round c7WitnessState "flee" c7WitnessDice
        = CombatSystem.after_action
            { c7WitnessState with log := c7WitnessState.log.add CombatSystem.fleeFailLine }
            c7WitnessDice
      ∧ CombatSystem.fleeFailLine
          ∈ ((CombatSystem.resolve_round c7WitnessState "flee" c7WitnessDice).2).log.rounds
      ∧ (CombatSystem.resolve_round c7WitnessState "flee" c7WitnessDice).1
          = ((CombatSystem.resolve_round c7WitnessState "flee" c7WitnessDice).2).player.is_alive) :=
  ⟨attempt_flee_draw_one_int5 c7WitnessState rfl, by decide,
    c7_flee_failure_falls_through c7WitnessState c7WitnessDice
      (attempt_flee_draw_one_int5 c7WitnessState rfl) (by decide)⟩

/-- Claim C8: a level-1 player with strength 5, xp 0 (and non-negative gold)
attacking a fresh goblin under dice whose first player roll is 20 scores a
critical hit for 2 × (20 + 5) = 50 damage: the goblin's hp drops to
8 − 50 = −42 ≤ 0, combat ends with outcome victory, and the player gains
30 xp, 5 gold, and "Rusty Dagger" appended to the inventory. -/
theorem c8_goblin_crit_scenario (p : Player) (d : CombatSystem.RoundDice)
    (hlv : p.level = 1) (hstr : p.strength = 5) (hxp : p.xp = 0) (hgold : 0 ≤ p.gold)
    (hroll : d.playerRoll = 20) :
    (CombatSystem.resolve_round
        { player := p, enemy := goblinTemplate, log := CombatLog.empty } "attack" d).1 = false
    ∧ ((CombatSystem.resolve_round
        { player := p, enemy := goblinTemplate, log := CombatLog.empty } "attack" d).2).enemy.hp
        = -42
    ∧ ((CombatSystem.resolve_round
        { player := p, enemy := goblinTemplate, log := CombatLog.empty } "attack" d).2).log.outcome
        = "victory"
    ∧ ((CombatSystem.resolve_round
        { player := p, enemy := goblinTemplate, log := CombatLog.empty } "attack" d).2).player.xp
        = 30
    ∧ ((CombatSystem.resolve_round
        { player := p, enemy := goblinTemplate, log := CombatLog.empty } "attack" d).2).player.gold
        = p.gold + 5
    ∧ ((CombatSystem.resolve_round
        { player := p, enemy := goblinTemplate, log := CombatLog.empty } "attack" d).2).player.inventory
        = p.inventory ++ ["Rusty Dagger"]
    ∧ ((CombatSystem.resolve_round
        { player := p, enemy := goblinTemplate, log := CombatLog.empty } "attack" d).2).log.xp_gained
        = 30
    ∧ ((CombatSystem.resolve_round
        { player := p, enemy := goblinTemplate, log := CombatLog.empty } "attack" d).2).log.gold_gained
        = 5
    ∧ ((CombatSystem.resolve_round
        { player := p, enemy := goblinTemplate, log := CombatLog.empty } "attack" d).2).log.loot_gained
        = ["Rusty Dagger"] := by
  obtain ⟨nm, php, pmhp, pstr, pint, pgold, pinv, plvl, pxp⟩ := p
  obtain ⟨fd, pr, er, edr⟩ := d
  simp only at hlv hstr hxp hgold hroll
  subst hlv hstr hxp hroll
  have hng : ¬ (pgold + (5 : Int) < 0) := by omega
  unfold CombatSystem.resolve_round
  rw [if_neg (by decide : ¬ (("attack" : String) = "flee"))]
  simp only [CombatSystem.attack_phase, CombatSystem.after_action,
    CombatSystem.resolve_victory, CombatSystem.player_damage, Player.gain_xp,
    Player.level_up, Player.modify_gold, Player.add_item, CombatLog.add,
    CombatLog.empty, goblinTemplate, make_enemy, List.foldl, hng]
  norm_num [hng]

/-- Witness for C8 at the default player and concrete dice. -/
theorem c8_goblin_crit_scenario_witness :
    defaultPlayer.level = 1 ∧ defaultPlayer.strength = 5 ∧ defaultPlayer.xp = 0 ∧
    0 ≤ defaultPlayer.gold ∧ c6WitnessDice.playerRoll = 20 ∧
    ((CombatSystem.resolve_round
        { player := defaultPlayer, enemy := goblinTemplate, log := CombatLog.empty }
        "attack" c6WitnessDice).2).log.outcome = "victory" :=
  ⟨rfl, rfl, rfl, by decide, rfl,
    (c8_goblin_crit_scenario defaultPlayer c6WitnessDice rfl rfl rfl (by decide)
      rfl).2.2.1⟩

/-- Claim C9: when the validated Intent has combat_trigger true but no enemy
identifier, the engine's combat dispatch substitutes the default identifier
"goblin" with the fallback notice logged, and the goblin lookup succeeds, so
combat is run rather than skipped. -/
theorem c9_default_enemy (r : DMResponse) (h1 : r.combat_trigger = true)
    (h2 : r.enemy_type = Option.none) :
    combat_dispatch r = Option.some ("goblin", true)
    ∧ get_enemy "goblin" = Except.ok goblinTemplate := by
  constructor
  · unfold combat_dispatch
    rw [h2]
    simp [h1]
  · rfl

/-- Witness for C9 at the validated Intent of the spec scenario
`combat_trigger = true` with the unregistered identifier `"dragon"`. -/
theorem c9_default_enemy_witness :
    dragonResponse.combat_trigger = true ∧ dragonResponse.enemy_type = Option.none ∧
      (combat_dispatch dragonResponse = Option.some ("goblin", true)
        ∧ get_enemy "goblin" = Except.ok goblinTemplate) :=
  ⟨rfl, rfl, c9_default_enemy dragonResponse rfl rfl⟩

end DungeonGame
